import Mathlib

set_option maxRecDepth 8192

/-!
Verification development for the burma2dserver repository.

The repository contains three fan-out subsystems, embedded here as three
namespaces:

* `Live`   — package `live` (SSE lottery-result ticker: snapshot store,
  JSON encode cache, `broadcastUpdate`, `StreamLotteryData`,
  `GetCurrentData`, `UpdateLotteryData`).
* `ChatWS` — package `chatws` (WebSocket chat: `clients` map keyed by
  connection, `handleBroadcast`, `readPump` ping/pong, `disconnect`,
  `authenticateClientWithToken`, `HandleWebSocket`).
* `Chat`   — package `chat` (SSE chat: `clients` map keyed by user id,
  `sendMessageHandler`, `broadcastMessage`, `sseStreamHandler`,
  `googleAuthHandler`, `getMessagesHandler`, `getBlockedUserIDs`).

Go channels are modelled as FIFO queues (`List String`) with the buffer
capacities taken from the source (`make(chan string, 50)`,
`make(chan []byte, 256)`, `make(chan []byte, 10)`); a non-blocking
`select { case ch <- m: default: }` enqueues when the queue length is
below capacity and otherwise takes the `default` branch.  `json.Marshal`
is modelled by a concrete field-concatenation function (the claims under
study depend on when and how often encoding happens and on which fields
appear, never on JSON syntax).  Database tables are modelled as in-memory
lists of rows.
-/

namespace Live

/-- Incoming data with the old JSON key format, struct `LotteryDataInput`. -/
structure LotteryDataInput where
  date : String
  live : String
  status : String
  set1200 : String
  value1200 : String
  result1200 : String
  set430 : String
  value430 : String
  result430 : String
  modern930 : String
  internet930 : String
  modern200 : String
  internet200 : String
  updateTime : String
deriving Repr, DecidableEq

/-- Outgoing lottery record, struct `LotteryData` (`ViewCount` is the
`active_viewers` field filled in by the server). -/
structure LotteryData where
  date : String
  live : String
  status : String
  set1200 : String
  value1200 : String
  result1200 : String
  set430 : String
  value430 : String
  result430 : String
  modern930 : String
  internet930 : String
  modern200 : String
  internet200 : String
  updateTime : String
  viewCount : Nat
deriving Repr, DecidableEq

/-- Helper `defaultVal` inside `ToLotteryData`: empty string becomes `"--"`. -/
def defaultVal (v : String) : String :=
  if v = "" then "--" else v

/-- Helper `defaultResult` inside `ToLotteryData`: empty string becomes `"---"`. -/
def defaultResult (v : String) : String :=
  if v = "" then "---" else v

/-- Method `(*LotteryDataInput).ToLotteryData`: field-by-field conversion,
defaulting exactly the fields the source defaults (note that `Date`,
`Status` and `UpdateTime` are passed through without defaulting). -/
def ToLotteryData (input : LotteryDataInput) : LotteryData :=
  { date := input.date
    live := defaultVal input.live
    status := input.status
    set1200 := defaultVal input.set1200
    value1200 := defaultVal input.value1200
    result1200 := defaultResult input.result1200
    set430 := defaultVal input.set430
    value430 := defaultVal input.value430
    result430 := defaultResult input.result430
    modern930 := defaultVal input.modern930
    internet930 := defaultVal input.internet930
    modern200 := defaultVal input.modern200
    internet200 := defaultVal input.internet200
    updateTime := input.updateTime
    viewCount := 0 }

/-- Stands for `json.Marshal(currentData)`: a concrete serialization of all
output fields in struct order.  The claims depend only on when encoding
happens and that one encoded string is reused, not on JSON syntax. -/
def encodeLotteryData (d : LotteryData) : String :=
  "draw_date:" ++
    (d.date ++ ";live_number:" ++ d.live ++ ";service_status:" ++ d.status ++
     ";noon_set:" ++ d.set1200 ++ ";noon_value:" ++ d.value1200 ++
     ";noon_result:" ++ d.result1200 ++ ";evening_set:" ++ d.set430 ++
     ";evening_value:" ++ d.value430 ++ ";evening_result:" ++ d.result430 ++
     ";morning_modern:" ++ d.modern930 ++ ";morning_internet:" ++ d.internet930 ++
     ";afternoon_modern:" ++ d.modern200 ++ ";afternoon_internet:" ++ d.internet200 ++
     ";last_update:" ++ d.updateTime ++ ";active_viewers:" ++ toString d.viewCount)

/-- Capacity of an SSE client channel: `make(chan string, 50)`. -/
def sseChanCap : Nat := 50

/-- One registered SSE client channel (an entry of the `clients` map). -/
structure SSEChan where
  chanId : Nat
  queue : List String
deriving Repr, DecidableEq

/-- Global state of the `live` package: `currentData`, the `clients`
registry and `cachedJSONMessage`. -/
structure LiveState where
  currentData : LotteryData
  clients : List SSEChan
  cachedJSONMessage : String
deriving Repr, DecidableEq

/-- Body of the broadcast loop for one client:
`select { case clientChan <- message: default: }` — enqueue when the
buffered channel has room, otherwise skip the client (it stays
registered and its channel stays open). -/
def liveDeliver (msg : String) (c : SSEChan) : SSEChan :=
  if c.queue.length < sseChanCap then { c with queue := c.queue ++ [msg] } else c

/-- Result of one `broadcastUpdate` call: the new global state, the list of
strings produced by the JSON encoder during the call, and the sent/skipped
counters the source logs. -/
structure BroadcastResult where
  state : LiveState
  encodes : List String
  sentCount : Nat
  skippedCount : Nat
deriving Repr, DecidableEq

/-- Function `broadcastUpdate`: read the client count, set
`currentData.ViewCount`, encode once into a pooled buffer, cache the
encoded message, then try a non-blocking send to every registered client. -/
def broadcastUpdate (st : LiveState) : BroadcastResult :=
  let clientCount := st.clients.length
  let d2 := { st.currentData with viewCount := clientCount }
  let msg := encodeLotteryData d2
  let clients2 := st.clients.map (liveDeliver msg)
  let sent := (st.clients.filter (fun c => c.queue.length < sseChanCap)).length
  { state := { currentData := d2, clients := clients2, cachedJSONMessage := msg }
    encodes := [msg]
    sentCount := sent
    skippedCount := clientCount - sent }

/-- Registration part of `StreamLotteryData`: create a channel with buffer
50, add it to `clients`, then send the initial message — the cached JSON
when non-empty, otherwise a fresh marshal (which also sets
`currentData.ViewCount` to the new client count).  Returns the new state,
the initial message written to the transport, and how many fresh encodes
happened. -/
def streamConnect (newId : Nat) (st : LiveState) : LiveState × String × Nat :=
  let clients2 := st.clients ++ [{ chanId := newId, queue := [] }]
  let clientCount := clients2.length
  let initialMessage := st.cachedJSONMessage
  if initialMessage = "" then
    let d2 := { st.currentData with viewCount := clientCount }
    ({ currentData := d2, clients := clients2, cachedJSONMessage := st.cachedJSONMessage },
     encodeLotteryData d2, 1)
  else
    ({ st with clients := clients2 }, initialMessage, 0)

/-- Disconnect branch of `StreamLotteryData`: delete the channel from
`clients` under the lock (the channel itself is closed just after the
lock is released). -/
def streamDisconnect (cid : Nat) (st : LiveState) : LiveState :=
  { st with clients := st.clients.filter (fun c => c.chanId ≠ cid) }

/-- Handler `GetCurrentData`: returns `currentData` as is (its `ViewCount`
is whatever the last broadcast or fresh initial marshal left there). -/
def GetCurrentData (st : LiveState) : LotteryData :=
  st.currentData

/-- Handler `UpdateLotteryData` (after successful JSON decode): convert the
input, replace `currentData` wholesale, then broadcast. -/
def UpdateLotteryData (input : LotteryDataInput) (st : LiveState) : BroadcastResult :=
  broadcastUpdate { st with currentData := ToLotteryData input }

/-- Default data installed by `live.Init` (the `Date` field is left at the
Go zero value; `UpdateTime` is the formatted start time, a parameter here). -/
def initData (startTime : String) : LotteryData :=
  { date := ""
    live := "--"
    status := "Off"
    set1200 := "--"
    value1200 := "--"
    result1200 := "---"
    set430 := "--"
    value430 := "--"
    result430 := "---"
    modern930 := "---"
    internet930 := "---"
    modern200 := "---"
    internet200 := "---"
    updateTime := startTime
    viewCount := 0 }

/-- Process-start state of the `live` package: default data, no clients,
empty JSON cache. -/
def initState (startTime : String) : LiveState :=
  { currentData := initData startTime, clients := [], cachedJSONMessage := "" }

/-- Connection-lifecycle operations of `StreamLotteryData` visible to the
registry: a client connects or a client disconnects. -/
inductive StreamOp where
  | connect (id : Nat)
  | disconnect (id : Nat)
deriving Repr, DecidableEq

/-- Apply one stream operation to the live state. -/
def applyStreamOp (op : StreamOp) (st : LiveState) : LiveState :=
  match op with
  | .connect i => (streamConnect i st).1
  | .disconnect i => streamDisconnect i st

/-- Apply a sequence of stream operations left to right. -/
def applyStreamOps (ops : List StreamOp) (st : LiveState) : LiveState :=
  ops.foldl (fun s o => applyStreamOp o s) st

end Live

namespace ChatWS

/-- Capacity of a WebSocket client's `Send` channel: `make(chan []byte, 256)`. -/
def sendCap : Nat := 256

/-- One WebSocket connection object (`WSClient`), together with the pieces
of dynamic state the claims need: the contents of the buffered `Send`
channel, whether that channel has been closed, whether the object is
still a key of the `clients` map, and whether its `readPump` loop is
still running. -/
structure WSConn where
  userID : String
  username : String
  photoURL : String
  queue : List String
  closed : Bool
  registered : Bool
  pumpAlive : Bool
deriving Repr, DecidableEq

/-- Global state of the `chatws` package: every live connection object
(position in the list is the connection's identity) and the
`chatws_messages` rows as (user id, text) pairs. -/
structure WSState where
  conns : List WSConn
  chatwsMessages : List (String × String)
deriving Repr, DecidableEq

/-- Body of the `handleBroadcast` loop for one client:
`select { case client.Send <- message: ... default: close(client.Send); delete(clients, client) }`
— enqueue when the buffer has room, otherwise close the channel and remove
the entry from the registry.  Connections not in the `clients` map are not
visited by the loop. -/
def wsDeliver (msg : String) (c : WSConn) : WSConn :=
  if c.registered = true then
    if c.queue.length < sendCap then { c with queue := c.queue ++ [msg] }
    else { c with closed := true, registered := false }
  else c

/-- One delivery cycle of the `handleBroadcast` goroutine for one message
taken from the `broadcast` channel. -/
def handleBroadcast (msg : String) (st : WSState) : WSState :=
  { st with conns := st.conns.map (wsDeliver msg) }

/-- Registration step of `HandleWebSocket`: `clients[client] = true`.  The
map is keyed by the `*WSClient` pointer, so every call adds a fresh
entry — even when a connection for the same user id is already
registered. -/
def wsRegister (uid uname purl : String) (st : WSState) : WSState :=
  { st with conns := st.conns ++
      [{ userID := uid, username := uname, photoURL := purl,
         queue := [], closed := false, registered := true, pumpAlive := true }] }

/-- Function `getOnlineCount`: `len(clients)` under the read lock. -/
def getOnlineCount (st : WSState) : Nat :=
  (st.conns.filter (fun c => c.registered)).length

/-- Payload the source builds for a `user_joined` event (before
`json.Marshal`): user id, username and `getOnlineCount()`. -/
structure UserJoinedData where
  userID : String
  username : String
  count : Nat
deriving Repr, DecidableEq

/-- Function `broadcastUserJoined`, restricted to the payload it builds:
the `count` field is `getOnlineCount()` evaluated at build time. -/
def broadcastUserJoinedData (c : WSConn) (st : WSState) : UserJoinedData :=
  { userID := c.userID, username := c.username, count := getOnlineCount st }

/-- Stands for `json.Marshal` of a `WSEvent` with `Type: "message"` and the
`Message` payload fields the source fills in. -/
def msgEventEncode (userID username photoURL text : String) : String :=
  "type:message;user_id:" ++ userID ++ ";username:" ++ username ++
    ";photo_url:" ++ photoURL ++ ";message:" ++ text

/-- Reply enqueued by `readPump` for an inbound ping frame. -/
def pongMsg : String := "type:pong"

/-- Ping branch of `readPump` for connection `i`:
`c.Send <- []byte("...pong...")` — an unconditional send with no check of
registration or closedness.  The returned flag is `true` exactly when the
send happens on an already-closed channel (in Go: a `send on closed
channel` runtime panic). -/
def pingReply (i : Nat) (st : WSState) : WSState × Bool :=
  match st.conns[i]? with
  | none => (st, false)
  | some c =>
    if c.pumpAlive = true then
      if c.closed = true then (st, true)
      else ({ st with conns := st.conns.set i { c with queue := c.queue ++ [pongMsg] } }, false)
    else (st, false)

/-- Function `(*WSClient).disconnect` (run when `readPump` exits): under the
lock, close the channel and delete the map entry only when the entry is
still present (the guard prevents a double close after `handleBroadcast`
already dropped the client). -/
def wsDisconnect (i : Nat) (st : WSState) : WSState :=
  match st.conns[i]? with
  | none => st
  | some c =>
    if c.registered = true then
      { st with conns :=
          st.conns.set i { c with registered := false, closed := true, pumpAlive := false } }
    else
      { st with conns := st.conns.set i { c with pumpAlive := false } }

/-- Function `(*WSClient).handleChatMessage` for connection `i` followed by
the `handleBroadcast` cycle that consumes the event it posts on the
`broadcast` channel: reject empty text, store the message row, then
deliver the encoded `message` event to every registered client.  The
source consults no ban list and no block list on this path. -/
def handleChatMessage (i : Nat) (text : String) (st : WSState) : WSState :=
  match st.conns[i]? with
  | none => st
  | some c =>
    if text = "" then st
    else
      let ev := msgEventEncode c.userID c.username c.photoURL text
      let st2 := { st with chatwsMessages := st.chatwsMessages ++ [(c.userID, text)] }
      handleBroadcast ev st2

/-- Claims decoded from a JWT payload (`sub`, `email`, `name`, `picture`). -/
structure TokenClaims where
  sub : String
  email : String
  name : String
  picture : String
deriving Repr, DecidableEq

/-- An ID token as `authenticateClientWithToken` sees it: the raw query
string, the number of dot-separated segments, the decoded payload claims
of the middle segment (when base64 and JSON decoding succeed), and
whether the Google token validator would accept the token — recorded so
theorems can state that this code path never consults it. -/
structure IDToken where
  raw : String
  partsCount : Nat
  payload : Option TokenClaims
  signatureValid : Bool
deriving Repr, DecidableEq

/-- Function `authenticateClientWithToken`: split on dots (must be 3
parts), base64+JSON decode the payload, require a non-empty `sub`, take
the username from `name` falling back to `email`.  No signature or
expiry verification of any kind (the source comments this as low
security mode), and no configuration flag gates the behaviour. -/
def authenticateClientWithToken (tok : IDToken) : Option (String × String × String) :=
  if tok.partsCount ≠ 3 then none
  else
    match tok.payload with
    | none => none
    | some c =>
      if c.sub = "" then none
      else
        let username := if c.name ≠ "" then c.name else c.email
        some (c.sub, username, c.picture)

/-- Handler `HandleWebSocket`: reject an absent/empty `idtoken` query
parameter, authenticate with `authenticateClientWithToken`, and on
success register the client (the Active state).  Returns the new state
and whether the connection reached Active. -/
def HandleWebSocket (tok : IDToken) (st : WSState) : WSState × Bool :=
  if tok.raw = "" then (st, false)
  else
    match authenticateClientWithToken tok with
    | none => (st, false)
    | some p => (wsRegister p.1 p.2.1 p.2.2 st, true)

end ChatWS

namespace Chat

/-- Capacity of a chat SSE client channel: `make(chan []byte, 10)`. -/
def chanCap : Nat := 10

/-- One `SSEClient`: identity metadata plus the buffered channel contents. -/
structure SSEClient where
  userID : String
  username : String
  photoURL : String
  channel : List String
deriving Repr, DecidableEq

/-- Row of the `chat_users` table (the columns the core reads). -/
structure ChatUser where
  id : String
  email : String
  username : String
  photoURL : String
  isOnline : Bool
deriving Repr, DecidableEq

/-- Row of the `chat_messages` table. -/
structure ChatMsg where
  id : Nat
  userID : String
  username : String
  photoURL : String
  text : String
deriving Repr, DecidableEq

/-- Relational store of the `chat` package: `chat_users`, `chat_blocks`
(blocker id, blocked id), `chat_banned_users` (user ids) and
`chat_messages` in insertion (chronological) order. -/
structure ChatDB where
  users : List ChatUser
  blocks : List (String × String)
  banned : List String
  messages : List ChatMsg
deriving Repr, DecidableEq

/-- The `clients` registry: a Go map keyed by user id, modelled as an
association list with unique keys maintained by `mapInsert`. -/
abbrev Registry : Type := List (String × SSEClient)

/-- Go map assignment `clients[userID] = client`: replace the entry for an
existing key, otherwise append a new entry. -/
def mapInsert (uid : String) (c : SSEClient) : Registry → Registry
  | [] => [(uid, c)]
  | (k, v) :: rest => if k = uid then (uid, c) :: rest else (k, v) :: mapInsert uid c rest

/-- Function `isUserBanned`: `SELECT COUNT(*) FROM chat_banned_users WHERE
user_id = ?` compared against zero. -/
def isUserBanned (uid : String) (db : ChatDB) : Bool :=
  db.banned.contains uid

/-- Per-recipient block check inside `broadcastMessage`:
`SELECT COUNT(*) FROM chat_blocks WHERE blocker_id = ? AND blocked_id = ?`. -/
def isBlockedBy (db : ChatDB) (blocker blocked : String) : Bool :=
  db.blocks.contains (blocker, blocked)

/-- Lookup `SELECT username, photo_url FROM chat_users WHERE id = ?`. -/
def lookupUser (uid : String) (db : ChatDB) : Option ChatUser :=
  db.users.find? (fun u => u.id = uid)

/-- Stands for `json.Marshal` of an `SSEEvent` with `Type: "message"` and a
`Message` payload. -/
def msgEventEncode (m : ChatMsg) : String :=
  "type:message;id:" ++ toString m.id ++ ";user_id:" ++ m.userID ++
    ";username:" ++ m.username ++ ";photo_url:" ++ m.photoURL ++
    ";message:" ++ m.text

/-- Wire framing `data: <json>` of one SSE event (the trailing blank line
is irrelevant to the claims). -/
def sseFrame (s : String) : String := "data: " ++ s

/-- Body of the `broadcastMessage` loop for one registry entry: skip the
recipient when it has blocked the sender, otherwise
`select { case client.Channel <- sseData: default: }` — enqueue when the
buffer has room and skip (leaving the entry untouched) when it is full. -/
def chatDeliver (db : ChatDB) (senderID frame : String) (p : String × SSEClient) :
    String × SSEClient :=
  if isBlockedBy db p.1 senderID = true then p
  else if p.2.channel.length < chanCap then
    (p.1, { p.2 with channel := p.2.channel ++ [frame] })
  else p

/-- Function `broadcastMessage`: marshal the `message` event once, then run
the per-recipient loop over the whole registry. -/
def broadcastMessage (m : ChatMsg) (senderID : String) (db : ChatDB) (reg : Registry) :
    Registry :=
  reg.map (chatDeliver db senderID (sseFrame (msgEventEncode m)))

/-- Function `getOnlineCount` of the chat package:
`SELECT COUNT(*) FROM chat_users WHERE is_online = 1` — a database count,
not the size of the in-memory `clients` registry. -/
def chatGetOnlineCount (db : ChatDB) : Nat :=
  (db.users.filter (fun u => u.isOnline)).length

/-- Stands for `json.Marshal` of the `online` presence event built by
`broadcastOnlineStatus` (count plus user list, both from the database). -/
def onlineEventEncode (db : ChatDB) : String :=
  "type:online;count:" ++ toString (chatGetOnlineCount db)

/-- Function `broadcastOnlineStatus`: build the presence event from the
database and try a non-blocking send to every registered client. -/
def broadcastOnlineStatus (db : ChatDB) (reg : Registry) : Registry :=
  let frame := sseFrame (onlineEventEncode db)
  reg.map (fun p =>
    if p.2.channel.length < chanCap then (p.1, { p.2 with channel := p.2.channel ++ [frame] })
    else p)

/-- SQL `UPDATE chat_users SET is_online = ? ... WHERE id = ?`: a no-op
when no row matches. -/
def dbSetOnline (uid : String) (b : Bool) (db : ChatDB) : ChatDB :=
  { db with users := db.users.map (fun u => if u.id = uid then { u with isOnline := b } else u) }

/-- SQL `INSERT INTO chat_users ... ON CONFLICT(id) DO UPDATE ...` with
`is_online = 1`, as issued by `googleAuthHandler`. -/
def dbUpsertUser (uid email uname purl : String) (db : ChatDB) : ChatDB :=
  if (db.users.find? (fun u => u.id = uid)).isSome then
    { db with users := db.users.map (fun u =>
        if u.id = uid then { u with username := uname, photoURL := purl, isOnline := true }
        else u) }
  else
    { db with users := db.users ++
        [{ id := uid, email := email, username := uname, photoURL := purl, isOnline := true }] }

/-- The `connected` event `sseStreamHandler` sends to a newly connected
client: the `online_count` field is `getOnlineCount()` — the database
count — evaluated after registration. -/
structure ConnectedEvent where
  userID : String
  onlineCount : Nat
deriving Repr, DecidableEq

/-- Registration part of `sseStreamHandler`: require a `user_id`, create a
client with a buffer-10 channel, put it in the `clients` map (keyed by
user id), set the database row online, broadcast the presence event, then
send the `connected` event carrying `getOnlineCount()`. -/
def sseConnect (uid uname purl : String) (db : ChatDB) (reg : Registry) :
    ChatDB × Registry × Option ConnectedEvent :=
  if uid = "" then (db, reg, none)
  else
    let client : SSEClient := { userID := uid, username := uname, photoURL := purl, channel := [] }
    let reg2 := mapInsert uid client reg
    let db2 := dbSetOnline uid true db
    let reg3 := broadcastOnlineStatus db2 reg2
    (db2, reg3, some { userID := uid, onlineCount := chatGetOnlineCount db2 })

/-- Disconnect branch of `sseStreamHandler`: delete the map entry, set the
database row offline, broadcast the presence event. -/
def sseDisconnect (uid : String) (db : ChatDB) (reg : Registry) : ChatDB × Registry :=
  let reg2 : Registry := reg.filter (fun p => p.1 ≠ uid)
  let db2 := dbSetOnline uid false db
  (db2, broadcastOnlineStatus db2 reg2)

/-- Request body of `POST /messages` (both fields carry
`binding:"required"`, so an empty string fails binding). -/
structure SendReq where
  userID : String
  message : String
deriving Repr, DecidableEq

/-- Responses `sendMessageHandler` can produce. -/
inductive SendResp where
  | badRequest
  | bannedResp
  | userNotFound
  | okResp (messageID : Nat)
deriving Repr, DecidableEq

/-- Handler `sendMessageHandler`: bind the request, reject banned senders
with a ban response and no broadcast, look the sender up in `chat_users`
(401 when absent), insert the message row, then `broadcastMessage`. -/
def sendMessageHandler (req : SendReq) (db : ChatDB) (reg : Registry) :
    SendResp × ChatDB × Registry :=
  if req.userID = "" ∨ req.message = "" then (SendResp.badRequest, db, reg)
  else if isUserBanned req.userID db = true then (SendResp.bannedResp, db, reg)
  else
    match lookupUser req.userID db with
    | none => (SendResp.userNotFound, db, reg)
    | some u =>
      let mid := db.messages.length + 1
      let m : ChatMsg := { id := mid, userID := req.userID, username := u.username,
                           photoURL := u.photoURL, text := req.message }
      let db2 := { db with messages := db.messages ++ [m] }
      (SendResp.okResp mid, db2, broadcastMessage m req.userID db2 reg)

/-- Request body of `POST /auth/google` (`id_token` carries
`binding:"required"`). -/
structure GoogleAuthReq where
  idToken : String
  email : String
  username : String
  photoURL : String
deriving Repr, DecidableEq

/-- Verified payload returned by the external token validator
(`idtoken.Validate`): the claims `googleAuthHandler` reads. -/
structure VerifiedPayload where
  email : String
  name : String
  picture : String
deriving Repr, DecidableEq

/-- Responses `googleAuthHandler` can produce. -/
inductive AuthResp where
  | badRequest
  | unauthorized
  | okResp (userID username : String)
deriving Repr, DecidableEq

/-- Handler `googleAuthHandler`: when a Google client ID is configured
(`googleClientID != ""`), call the external validator and reject the
request when it fails; when no client ID is configured — the package
zero value, i.e. the default when `SetGoogleClientID` was never called —
fall back to a development mode that accepts the caller-supplied
identity unverified (requiring only a non-empty email). -/
def googleAuthHandler (googleClientID : String)
    (validate : String → Option VerifiedPayload) (req : GoogleAuthReq) (db : ChatDB) :
    AuthResp × ChatDB :=
  if req.idToken = "" then (AuthResp.badRequest, db)
  else if googleClientID ≠ "" then
    match validate req.idToken with
    | none => (AuthResp.unauthorized, db)
    | some p =>
      let userID := p.email
      let username := if p.name ≠ "" then p.name
        else if req.username ≠ "" then req.username else p.email
      let photoURL := if p.picture ≠ "" then p.picture else req.photoURL
      (AuthResp.okResp userID username, dbUpsertUser userID p.email username photoURL db)
  else
    if req.email = "" then (AuthResp.badRequest, db)
    else (AuthResp.okResp req.email req.username,
          dbUpsertUser req.email req.email req.username req.photoURL db)

/-- The single-quote character used by `getBlockedUserIDs` to quote ids. -/
def quoteChar : Char := Char.ofNat 39

/-- A one-character string holding the single quote. -/
def quoteStr : String := String.mk [quoteChar]

/-- Go `strings.Join(ids, ",")`. -/
def joinComma : List String → String
  | [] => ""
  | [x] => x
  | x :: y :: rest => x ++ "," ++ joinComma (y :: rest)

/-- Function `getBlockedUserIDs`: collect the requester's blocked ids,
wrap each in single quotes, and join them with commas into ONE string
(`"''"` when there are none); the caller binds this whole string as a
single SQL parameter. -/
def getBlockedUserIDs (uid : String) (db : ChatDB) : String :=
  if uid = "" then quoteStr ++ quoteStr
  else
    let ids := (db.blocks.filter (fun p => p.1 = uid)).map (fun p => quoteStr ++ p.2 ++ quoteStr)
    if ids.isEmpty then quoteStr ++ quoteStr else joinComma ids

/-- Handler `getMessagesHandler`: require `user_id`; run
`SELECT ... FROM chat_messages WHERE user_id NOT IN (?) ORDER BY
created_at DESC LIMIT ?` with the joined blocked-ids string bound as the
single `?` of `NOT IN` — so SQL compares each `user_id` with that one
literal string — then reverse the rows into chronological order. -/
def getMessagesHandler (uid : String) (lim : Nat) (db : ChatDB) : Option (List ChatMsg) :=
  if uid = "" then none
  else
    let blockedParam := getBlockedUserIDs uid db
    let rows := ((db.messages.filter (fun m => m.userID ≠ blockedParam)).reverse).take lim
    some rows.reverse

end Chat

/-! Concrete states used by the counterexamples and witnesses below. -/

/-- An SSE client of the `live` package whose buffer is exactly full. -/
def ex1FullChan : Live.SSEChan :=
  { chanId := 0, queue := List.replicate 50 "m" }

/-- A live state holding one full client. -/
def ex1State : Live.LiveState :=
  { currentData := Live.initData "t", clients := [ex1FullChan], cachedJSONMessage := "" }

/-- A registered chatws connection with a full `Send` buffer, used in the
claim C1 witness. -/
def w1Full : ChatWS.WSConn :=
  { userID := "u1", username := "alice", photoURL := "",
    queue := List.replicate 256 "m", closed := false, registered := true, pumpAlive := true }

/-- A chatws state holding one full registered connection. -/
def w1StW : ChatWS.WSState := { conns := [w1Full], chatwsMessages := [] }

/-- A full live client used in the claim C1 witness. -/
def w1LChan : Live.SSEChan := { chanId := 7, queue := List.replicate 50 "q" }

/-- A live state holding one full client used in the claim C1 witness. -/
def w1StL : Live.LiveState :=
  { currentData := Live.initData "t", clients := [w1LChan], cachedJSONMessage := "" }

/-- A chat SSE client with an empty channel. -/
def w1CCl : Chat.SSEClient := { userID := "c", username := "carol", photoURL := "", channel := [] }

/-- A chat registry holding that one client. -/
def w1Reg : Chat.Registry := [("c", w1CCl)]

/-- A chat database with no blocks. -/
def w1Db : Chat.ChatDB := { users := [], blocks := [], banned := [], messages := [] }

/-- A message used in the claim C1 witness. -/
def w1M : Chat.ChatMsg := { id := 1, userID := "b", username := "bob", photoURL := "", text := "hi" }

/-- A registered chatws connection whose `Send` buffer is exactly full
(256 queued messages) and whose `readPump` is still running. -/
def c2Conn : ChatWS.WSConn :=
  { userID := "u1", username := "alice", photoURL := "",
    queue := List.replicate 256 "m", closed := false, registered := true, pumpAlive := true }

/-- A chatws state holding only that connection. -/
def c2St : ChatWS.WSState := { conns := [c2Conn], chatwsMessages := [] }

/-- Live state reached by: process start, one stream client connects, one
broadcast runs, the client disconnects. -/
def c3S2 : Live.LiveState :=
  Live.streamDisconnect 0 (Live.broadcastUpdate (Live.streamConnect 0 (Live.initState "t")).1).state

/-- A live state with two connected clients, for the claim C3 witness. -/
def w3St : Live.LiveState :=
  { currentData := Live.initData "t",
    clients := [{ chanId := 0, queue := [] }, { chanId := 1, queue := [] }],
    cachedJSONMessage := "" }

/-- A chat database with one offline user, for the claim C3 witness. -/
def w3Db : Chat.ChatDB :=
  { users := [{ id := "z", email := "z@x", username := "zoe", photoURL := "", isOnline := false }],
    blocks := [], banned := [], messages := [] }

/-- A well-formed but unverified (forged) ID token: three dot-separated
segments, a decodable payload with a non-empty `sub`, and a signature the
Google validator would reject. -/
def c4Tok : ChatWS.IDToken :=
  { raw := "forged", partsCount := 3,
    payload := some { sub := "attacker", email := "e@x", name := "Mallory", picture := "" },
    signatureValid := false }

/-- An empty chatws state. -/
def c4St : ChatWS.WSState := { conns := [], chatwsMessages := [] }

/-- A token accepted by the stub validator of the claim C4 witness. -/
def w4Tok : ChatWS.IDToken :=
  { raw := "tok", partsCount := 3,
    payload := some { sub := "s", email := "e@x", name := "Neil", picture := "" },
    signatureValid := true }

/-- Stub external validator used in the claim C4 witness. -/
def w4Validate : String → Option Chat.VerifiedPayload :=
  fun s => if s = "tok" then some { email := "e@x", name := "Neil", picture := "" } else none

/-- An auth request used in the claim C4 witness. -/
def w4Req : Chat.GoogleAuthReq :=
  { idToken := "tok", email := "e@x", username := "neil", photoURL := "" }

/-- A chat database recording that user `a` has blocked user `b`. -/
def c5Db : Chat.ChatDB :=
  { users := [], blocks := [("a", "b")], banned := [], messages := [] }

/-- A chatws state where both the blocked sender `b` and the blocker `a`
are registered with empty buffers. -/
def c5St : ChatWS.WSState :=
  { conns :=
      [{ userID := "b", username := "bob", photoURL := "",
         queue := [], closed := false, registered := true, pumpAlive := true },
       { userID := "a", username := "anna", photoURL := "",
         queue := [], closed := false, registered := true, pumpAlive := true }],
    chatwsMessages := [] }

/-- Registry for the claim C5 witness: blocker `a` and bystander `c`. -/
def w5Reg : Chat.Registry :=
  [("a", { userID := "a", username := "anna", photoURL := "", channel := [] }),
   ("c", { userID := "c", username := "carol", photoURL := "", channel := [] })]

/-- A message from sender `b` used in the claim C5 witness. -/
def w5M : Chat.ChatMsg := { id := 9, userID := "b", username := "bob", photoURL := "", text := "yo" }

/-- A chat database where user `b` is banned. -/
def c6Db : Chat.ChatDB :=
  { users := [], blocks := [], banned := ["b"], messages := [] }

/-- A chatws state where banned user `b` and recipient `r` are registered. -/
def c6St : ChatWS.WSState :=
  { conns :=
      [{ userID := "b", username := "bob", photoURL := "",
         queue := [], closed := false, registered := true, pumpAlive := true },
       { userID := "r", username := "rita", photoURL := "",
         queue := [], closed := false, registered := true, pumpAlive := true }],
    chatwsMessages := [] }

/-- A chat database for the claim C6 witness: sender `s` exists and is not
banned, recipient `a` has blocked nobody, `q` has blocked `s`. -/
def w6Db : Chat.ChatDB :=
  { users := [{ id := "s", email := "s@x", username := "sam", photoURL := "", isOnline := true }],
    blocks := [("q", "s")], banned := ["z"], messages := [] }

/-- Registry for the claim C6 witness. -/
def w6Reg : Chat.Registry :=
  [("a", { userID := "a", username := "anna", photoURL := "", channel := [] }),
   ("q", { userID := "q", username := "quinn", photoURL := "", channel := [] })]

/-- Send request for the claim C6 witness. -/
def w6Req : Chat.SendReq := { userID := "s", message := "hi" }

/-- Send request from a banned user for the claim C6 witness. -/
def w6ReqBanned : Chat.SendReq := { userID := "z", message := "hi" }

/-- An empty chatws state used in the claim C7 counterexample. -/
def c7S0 : ChatWS.WSState := { conns := [], chatwsMessages := [] }

/-- State after identity `u` connects once over the chatws WebSocket. -/
def c7S1 : ChatWS.WSState := ChatWS.wsRegister "u" "n" "p" c7S0

/-- State after identity `u` connects a second time with no intervening
disconnect. -/
def c7S2 : ChatWS.WSState := ChatWS.wsRegister "u" "n" "p" c7S1

/-- A chat SSE client used in the claim C7 witness. -/
def w7Cl : Chat.SSEClient := { userID := "u", username := "nina", photoURL := "", channel := [] }

/-- A chat registry already holding an entry for `u`. -/
def w7Reg : Chat.Registry := [("u", w7Cl)]

/-- An all-empty producer update. -/
def ex8empty : Live.LotteryDataInput :=
  { date := "", live := "", status := "", set1200 := "", value1200 := "", result1200 := "",
    set430 := "", value430 := "", result430 := "", modern930 := "", internet930 := "",
    modern200 := "", internet200 := "", updateTime := "" }

/-- A producer update mixing empty and present fields. -/
def ex8 : Live.LotteryDataInput :=
  { date := "2025-01-01", live := "", status := "On", set1200 := "", value1200 := "",
    result1200 := "", set430 := "", value430 := "", result430 := "134", modern930 := "",
    internet930 := "", modern200 := "", internet200 := "", updateTime := "" }

/-- A live state with a non-empty JSON cache and one client, for the
claim C9 witness. -/
def w9St : Live.LiveState :=
  { currentData := Live.initData "t",
    clients := [{ chanId := 0, queue := [] }],
    cachedJSONMessage := "cached" }

/-- Messages stored for the claim C10 witness: one from blocked user `b`,
one from `c`. -/
def w10MsgB : Chat.ChatMsg :=
  { id := 1, userID := "b", username := "bob", photoURL := "", text := "from blocked" }

/-- Second stored message for the claim C10 witness. -/
def w10MsgC : Chat.ChatMsg :=
  { id := 2, userID := "c", username := "carol", photoURL := "", text := "hello" }

/-- A chat database where requester `a` has blocked `b`, and both `b` and
`c` have stored messages. -/
def w10Db : Chat.ChatDB :=
  { users := [], blocks := [("a", "b")], banned := [], messages := [w10MsgB, w10MsgC] }

/-! Helper lemmas shared by the claim theorems. -/

theorem Live.encodeLotteryData_ne_empty (d : Live.LotteryData) :
    Live.encodeLotteryData d ≠ "" := by
  intro h
  have h2 : (Live.encodeLotteryData d).data = ("" : String).data := congrArg String.data h
  have h3 : (Live.encodeLotteryData d).data =
      ("draw_date:" : String).data ++
        (d.date ++ ";live_number:" ++ d.live ++ ";service_status:" ++ d.status ++
         ";noon_set:" ++ d.set1200 ++ ";noon_value:" ++ d.value1200 ++
         ";noon_result:" ++ d.result1200 ++ ";evening_set:" ++ d.set430 ++
         ";evening_value:" ++ d.value430 ++ ";evening_result:" ++ d.result430 ++
         ";morning_modern:" ++ d.modern930 ++ ";morning_internet:" ++ d.internet930 ++
         ";afternoon_modern:" ++ d.modern200 ++ ";afternoon_internet:" ++ d.internet200 ++
         ";last_update:" ++ d.updateTime ++ ";active_viewers:" ++ toString d.viewCount).data := rfl
  rw [h3] at h2
  simp at h2

theorem Live.broadcastUpdate_cache_ne_empty (st : Live.LiveState) :
    (Live.broadcastUpdate st).state.cachedJSONMessage ≠ "" := by
  simp only [Live.broadcastUpdate]
  exact Live.encodeLotteryData_ne_empty _

theorem Live.applyStreamOp_preserves (op : Live.StreamOp) (st : Live.LiveState)
    (h : st.cachedJSONMessage ≠ "") :
    (Live.applyStreamOp op st).currentData = st.currentData ∧
      (Live.applyStreamOp op st).cachedJSONMessage = st.cachedJSONMessage := by
  cases op with
  | connect i =>
    simp only [Live.applyStreamOp, Live.streamConnect]
    rw [if_neg h]
    exact ⟨rfl, rfl⟩
  | disconnect i =>
    simp [Live.applyStreamOp, Live.streamDisconnect]

theorem Live.applyStreamOps_preserves (ops : List Live.StreamOp) (st : Live.LiveState)
    (h : st.cachedJSONMessage ≠ "") :
    (Live.applyStreamOps ops st).currentData = st.currentData ∧
      (Live.applyStreamOps ops st).cachedJSONMessage = st.cachedJSONMessage := by
  induction ops generalizing st with
  | nil => exact ⟨rfl, rfl⟩
  | cons op rest ih =>
    have h1 := Live.applyStreamOp_preserves op st h
    have h2 := ih (Live.applyStreamOp op st) (h1.2 ▸ h)
    simp only [Live.applyStreamOps, List.foldl_cons] at h2 ⊢
    exact ⟨h2.1.trans h1.1, h2.2.trans h1.2⟩

theorem ChatWS.handleBroadcast_getElem (msg : String) (st : ChatWS.WSState) (i : Nat)
    (c : ChatWS.WSConn) (h : st.conns[i]? = some c) :
    ((ChatWS.handleBroadcast msg st).conns)[i]? = some (ChatWS.wsDeliver msg c) := by
  simp only [ChatWS.handleBroadcast]
  rw [List.getElem?_map, h]
  rfl

theorem Live.broadcastUpdate_getElem (st : Live.LiveState) (i : Nat) (c : Live.SSEChan)
    (h : st.clients[i]? = some c) :
    ((Live.broadcastUpdate st).state.clients)[i]? =
      some (Live.liveDeliver (Live.broadcastUpdate st).state.cachedJSONMessage c) := by
  simp only [Live.broadcastUpdate]
  rw [List.getElem?_map, h]
  rfl

theorem Chat.broadcastMessage_getElem (m : Chat.ChatMsg) (senderID : String) (db : Chat.ChatDB)
    (reg : Chat.Registry) (i : Nat) (p : String × Chat.SSEClient) (h : reg[i]? = some p) :
    (Chat.broadcastMessage m senderID db reg)[i]? =
      some (Chat.chatDeliver db senderID (Chat.sseFrame (Chat.msgEventEncode m)) p) := by
  simp only [Chat.broadcastMessage]
  rw [List.getElem?_map, h]
  rfl

theorem Chat.mapInsert_length_of_mem (uid : String) (c c0 : Chat.SSEClient)
    (reg : Chat.Registry) (h : (uid, c0) ∈ reg) :
    (Chat.mapInsert uid c reg).length = reg.length := by
  induction reg with
  | nil => cases h
  | cons p rest ih =>
    obtain ⟨k, v⟩ := p
    by_cases hk : k = uid
    · simp [Chat.mapInsert, hk]
    · have hmem : (uid, c0) ∈ rest := by
        rcases List.mem_cons.mp h with h1 | h1
        · cases h1
          exact absurd rfl hk
        · exact h1
      simp [Chat.mapInsert, hk, ih hmem]

theorem Chat.strData_append (a b : String) : (a ++ b).data = a.data ++ b.data := rfl

theorem Chat.quotedWrap_head (x : String) :
    (Chat.quoteStr ++ x ++ Chat.quoteStr).data.head? = some Chat.quoteChar := by
  have h : (Chat.quoteStr ++ x ++ Chat.quoteStr).data =
      Chat.quoteChar :: (x.data ++ Chat.quoteStr.data) := rfl
  rw [h]
  rfl

theorem Chat.joinComma_head (l : List String)
    (h : ∀ s ∈ l, s.data.head? = some Chat.quoteChar) (hne : l ≠ []) :
    (Chat.joinComma l).data.head? = some Chat.quoteChar := by
  match l with
  | [] => exact absurd rfl hne
  | [x] =>
    simp only [Chat.joinComma]
    exact h x (List.mem_singleton.mpr rfl)
  | x :: y :: rest =>
    have hx := h x (List.mem_cons_self ..)
    simp only [Chat.joinComma]
    rcases hd : x.data with _ | ⟨a, t⟩
    · rw [hd] at hx
      cases hx
    · rw [hd] at hx
      have ha : a = Chat.quoteChar := by
        simpa using hx
      have hdata : (x ++ "," ++ Chat.joinComma (y :: rest)).data =
          x.data ++ ((("," : String) ++ Chat.joinComma (y :: rest)).data) := by
        rw [String.append_assoc]
        exact Chat.strData_append ..
      rw [hdata, hd, ha]
      rfl

theorem Chat.getBlockedUserIDs_head (uid : String) (db : Chat.ChatDB) :
    (Chat.getBlockedUserIDs uid db).data.head? = some Chat.quoteChar := by
  by_cases h1 : uid = ""
  · simp only [Chat.getBlockedUserIDs, if_pos h1]
    rfl
  · simp only [Chat.getBlockedUserIDs, if_neg h1]
    by_cases h2 :
        ((db.blocks.filter (fun p => p.1 = uid)).map
          (fun p => Chat.quoteStr ++ p.2 ++ Chat.quoteStr)).isEmpty
    · rw [if_pos h2]
      rfl
    · rw [if_neg h2]
      refine Chat.joinComma_head _ ?_ ?_
      · intro s hs
        obtain ⟨p, _, hp⟩ := List.mem_map.mp hs
        rw [← hp]
        exact Chat.quotedWrap_head p.2
      · intro hnil
        rw [hnil] at h2
        exact h2 rfl

/-! Claim theorems. -/

/-- Claim C8, counterexample: the producer-update defaulting does NOT cover
every field — on an all-empty input, `ToLotteryData` leaves `Date`,
`Status` and `UpdateTime` as the empty string, which is neither the
`"--"` nor the `"---"` sentinel, contradicting the claim that every
missing or empty input field is replaced with a placeholder. -/
theorem claim8_cex :
    (Live.ToLotteryData ex8empty).status = "" ∧
    (Live.ToLotteryData ex8empty).date = "" ∧
    (Live.ToLotteryData ex8empty).updateTime = "" ∧
    ("" : String) ≠ "--" ∧ ("" : String) ≠ "---" := by
  decide

/-- Claim C8 (amended): `ToLotteryData` substitutes `"--"` for the empty
set/value fields (`Live`, `Set1200`, `Value1200`, `Set430`, `Value430`,
`Modern930`, `Internet930`, `Modern200`, `Internet200`), `"---"` for the
empty result fields (`Result1200`, `Result430`), and stores every
non-empty field unchanged — but `Date`, `Status` and `UpdateTime` are
passed through without defaulting, empty or not.  The defaulting is
applied by `UpdateLotteryData` before the value reaches the snapshot
store (the stored snapshot differs from `ToLotteryData input` only in
the `ViewCount` the broadcast fills in). -/
theorem claim8_amended (input : Live.LotteryDataInput) :
    ((Live.ToLotteryData input).date = input.date) ∧
    ((Live.ToLotteryData input).status = input.status) ∧
    ((Live.ToLotteryData input).updateTime = input.updateTime) ∧
    (input.live = "" → (Live.ToLotteryData input).live = "--") ∧
    (input.live ≠ "" → (Live.ToLotteryData input).live = input.live) ∧
    (input.set1200 = "" → (Live.ToLotteryData input).set1200 = "--") ∧
    (input.set1200 ≠ "" → (Live.ToLotteryData input).set1200 = input.set1200) ∧
    (input.value1200 = "" → (Live.ToLotteryData input).value1200 = "--") ∧
    (input.value1200 ≠ "" → (Live.ToLotteryData input).value1200 = input.value1200) ∧
    (input.result1200 = "" → (Live.ToLotteryData input).result1200 = "---") ∧
    (input.result1200 ≠ "" → (Live.ToLotteryData input).result1200 = input.result1200) ∧
    (input.set430 = "" → (Live.ToLotteryData input).set430 = "--") ∧
    (input.set430 ≠ "" → (Live.ToLotteryData input).set430 = input.set430) ∧
    (input.value430 = "" → (Live.ToLotteryData input).value430 = "--") ∧
    (input.value430 ≠ "" → (Live.ToLotteryData input).value430 = input.value430) ∧
    (input.result430 = "" → (Live.ToLotteryData input).result430 = "---") ∧
    (input.result430 ≠ "" → (Live.ToLotteryData input).result430 = input.result430) ∧
    (input.modern930 = "" → (Live.ToLotteryData input).modern930 = "--") ∧
    (input.modern930 ≠ "" → (Live.ToLotteryData input).modern930 = input.modern930) ∧
    (input.internet930 = "" → (Live.ToLotteryData input).internet930 = "--") ∧
    (input.internet930 ≠ "" → (Live.ToLotteryData input).internet930 = input.internet930) ∧
    (input.modern200 = "" → (Live.ToLotteryData input).modern200 = "--") ∧
    (input.modern200 ≠ "" → (Live.ToLotteryData input).modern200 = input.modern200) ∧
    (input.internet200 = "" → (Live.ToLotteryData input).internet200 = "--") ∧
    (input.internet200 ≠ "" → (Live.ToLotteryData input).internet200 = input.internet200) ∧
    (∀ st : Live.LiveState,
      { (Live.UpdateLotteryData input st).state.currentData with viewCount := 0 } =
        Live.ToLotteryData input) := by
  refine ⟨rfl, rfl, rfl, ?_, ?_, ?_, ?_, ?_, ?_, ?_, ?_, ?_, ?_, ?_, ?_, ?_, ?_, ?_, ?_,
    ?_, ?_, ?_, ?_, ?_, ?_, ?_⟩ <;>
    first
      | (intro h; simp [Live.ToLotteryData, Live.defaultVal, Live.defaultResult, h])
      | (intro st; rfl)

/-- Claim C8, witness for the amended theorem at a concrete input: the
empty `Live` field becomes `"--"`, the present `Result430` value `"134"`
is stored unchanged, and the empty `Date` stays empty. -/
theorem claim8_witness :
    (Live.ToLotteryData ex8).live = "--" ∧
    (Live.ToLotteryData ex8).result430 = "134" ∧
    (Live.ToLotteryData ex8).date = "2025-01-01" ∧
    (Live.ToLotteryData ex8).updateTime = "" := by
  obtain ⟨h1, h2, h3, h4, h5, h6, h7, h8, h9, h10, h11, h12, h13, h14, h15, h16, h17, h18,
    h19, h20, h21, h22, h23, h24, h25, h26⟩ := claim8_amended ex8
  exact ⟨h4 rfl, h17 (by decide), h1, h3⟩

/-- Claim C1, counterexample: in the `live` package's dispatcher
(`broadcastUpdate`), a subscriber whose channel queue is full is merely
skipped — after the broadcast it is still registered, with its queue
unchanged and its channel open — contradicting the claim that every
subscriber whose enqueue failed is dropped (channel closed, entry
removed) by the end of the broadcast. -/
theorem claim1_cex :
    (Live.broadcastUpdate ex1State).skippedCount = 1 ∧
    (Live.broadcastUpdate ex1State).sentCount = 0 ∧
    ((Live.broadcastUpdate ex1State).state.clients)[0]? = some ex1FullChan ∧
    (Live.broadcastUpdate ex1State).state.clients.length = 1 := by
  decide

/-- Claim C1 (amended): all three dispatchers attempt a non-blocking
enqueue per registered subscriber and never block, and subscribers whose
enqueue succeeds receive exactly the broadcast message; but only the
chatws WebSocket dispatcher (`handleBroadcast`) drops a full subscriber
(channel closed, registry entry removed).  The live SSE dispatcher
(`broadcastUpdate`) and the chat SSE dispatcher (`broadcastMessage`)
skip a full subscriber for that message while leaving it registered with
its channel open and queue unchanged. -/
theorem claim1_amended (msg : String) (stW : ChatWS.WSState) (stL : Live.LiveState)
    (m : Chat.ChatMsg) (senderID : String) (db : Chat.ChatDB) (reg : Chat.Registry)
    (iW iL iC : Nat) :
    (∀ c, stW.conns[iW]? = some c → c.registered = true →
      ((ChatWS.sendCap ≤ c.queue.length →
        ((ChatWS.handleBroadcast msg stW).conns)[iW]? =
          some { c with closed := true, registered := false }) ∧
       (c.queue.length < ChatWS.sendCap →
        ((ChatWS.handleBroadcast msg stW).conns)[iW]? =
          some { c with queue := c.queue ++ [msg] }))) ∧
    ((Live.broadcastUpdate stL).state.clients.length = stL.clients.length ∧
     ∀ c, stL.clients[iL]? = some c →
      ((Live.sseChanCap ≤ c.queue.length →
        ((Live.broadcastUpdate stL).state.clients)[iL]? = some c) ∧
       (c.queue.length < Live.sseChanCap →
        ((Live.broadcastUpdate stL).state.clients)[iL]? =
          some { c with
            queue := c.queue ++ [(Live.broadcastUpdate stL).state.cachedJSONMessage] }))) ∧
    ((Chat.broadcastMessage m senderID db reg).length = reg.length ∧
     ∀ uid cl, reg[iC]? = some (uid, cl) →
      ((Chat.isBlockedBy db uid senderID = true →
        (Chat.broadcastMessage m senderID db reg)[iC]? = some (uid, cl)) ∧
       (Chat.isBlockedBy db uid senderID = false → Chat.chanCap ≤ cl.channel.length →
        (Chat.broadcastMessage m senderID db reg)[iC]? = some (uid, cl)) ∧
       (Chat.isBlockedBy db uid senderID = false → cl.channel.length < Chat.chanCap →
        (Chat.broadcastMessage m senderID db reg)[iC]? =
          some (uid,
            { cl with channel := cl.channel ++ [Chat.sseFrame (Chat.msgEventEncode m)] })))) := by
  refine ⟨?_, ⟨?_, ?_⟩, ⟨?_, ?_⟩⟩
  · intro c hc hreg
    constructor
    · intro hfull
      rw [ChatWS.handleBroadcast_getElem msg stW iW c hc]
      simp [ChatWS.wsDeliver, hreg, Nat.not_lt.mpr hfull]
    · intro hroom
      rw [ChatWS.handleBroadcast_getElem msg stW iW c hc]
      simp [ChatWS.wsDeliver, hreg, hroom]
  · simp [Live.broadcastUpdate]
  · intro c hc
    constructor
    · intro hfull
      rw [Live.broadcastUpdate_getElem stL iL c hc]
      simp [Live.liveDeliver, Nat.not_lt.mpr hfull]
    · intro hroom
      rw [Live.broadcastUpdate_getElem stL iL c hc]
      simp [Live.liveDeliver, hroom]
  · simp [Chat.broadcastMessage]
  · intro uid cl hc
    refine ⟨?_, ?_, ?_⟩
    · intro hblocked
      rw [Chat.broadcastMessage_getElem m senderID db reg iC (uid, cl) hc]
      simp [Chat.chatDeliver, hblocked]
    · intro hblocked hfull
      rw [Chat.broadcastMessage_getElem m senderID db reg iC (uid, cl) hc]
      simp [Chat.chatDeliver, hblocked, Nat.not_lt.mpr hfull]
    · intro hblocked hroom
      rw [Chat.broadcastMessage_getElem m senderID db reg iC (uid, cl) hc]
      simp [Chat.chatDeliver, hblocked, hroom]

/-- Claim C1, witness for the amended theorem at concrete inputs: the full
chatws subscriber is closed and deregistered, the full live subscriber
survives the broadcast unchanged, and a chat subscriber with room
receives the framed message event. -/
theorem claim1_witness :
    ((ChatWS.handleBroadcast "x" w1StW).conns)[0]? =
      some { w1Full with closed := true, registered := false } ∧
    ((Live.broadcastUpdate w1StL).state.clients)[0]? = some w1LChan ∧
    (Chat.broadcastMessage w1M "b" w1Db w1Reg)[0]? =
      some ("c", { w1CCl with
        channel := w1CCl.channel ++ [Chat.sseFrame (Chat.msgEventEncode w1M)] }) := by
  have h := claim1_amended "x" w1StW w1StL w1M "b" w1Db w1Reg 0 0 0
  refine ⟨(h.1 w1Full (by decide) (by decide)).1 (by decide), ?_, ?_⟩
  · exact (h.2.1.2 w1LChan (by decide)).1 (by decide)
  · exact (h.2.2.2 "c" w1CCl (by decide)).2.2 (by decide) (by decide)

/-- Claim C2: the safety property "no message is ever enqueued onto a
subscriber's channel after that channel has been closed" is violated by
the code.  This theorem evaluates the failing scenario: a registered
chatws client with a full `Send` buffer is dropped by `handleBroadcast`
(channel closed, entry removed) while its `readPump` is still running;
the client then sends a ping frame and `readPump` executes
`c.Send <- pong` with no registration or closedness check — an enqueue
onto the already-closed channel (in Go, a `send on closed channel`
panic that crashes the process). -/
theorem claim2_bug :
    ((ChatWS.handleBroadcast "x" c2St).conns)[0]? =
      some { c2Conn with closed := true, registered := false } ∧
    (ChatWS.pingReply 0 (ChatWS.handleBroadcast "x" c2St)).2 = true := by
  decide

/-- Claim C3, counterexample: after one stream client connects, one
broadcast runs, and the client disconnects, `GetCurrentData` still
reports `active_viewers = 1` while the subscriber registry is empty —
the reported count is the value cached at the last broadcast, not
`len(registry)` at the time of computation. -/
theorem claim3_cex :
    (Live.GetCurrentData c3S2).viewCount = 1 ∧
    c3S2.clients.length = 0 ∧
    (Live.GetCurrentData c3S2).viewCount ≠ c3S2.clients.length := by
  decide

/-- Claim C3 (amended): the chatws `user_joined` event embeds
`len(clients)` computed at build time, and a live broadcast computes
`active_viewers` as `len(registry)` at broadcast time; but the `live`
GET current-data response reports the viewer count frozen at the last
broadcast — unchanged across any later connects and disconnects — and
the chat `connected` event reports the database `is_online` count, not
the size of the in-memory registry. -/
theorem claim3_amended (st : Live.LiveState) (ops : List Live.StreamOp)
    (db : Chat.ChatDB) (reg : Chat.Registry) (uid uname purl : String)
    (c : ChatWS.WSConn) (stW : ChatWS.WSState) :
    ((Live.broadcastUpdate st).state.currentData.viewCount = st.clients.length) ∧
    ((Live.GetCurrentData (Live.applyStreamOps ops (Live.broadcastUpdate st).state)).viewCount =
      st.clients.length) ∧
    (uid ≠ "" →
      (Chat.sseConnect uid uname purl db reg).2.2 =
        some { userID := uid,
               onlineCount := Chat.chatGetOnlineCount (Chat.dbSetOnline uid true db) }) ∧
    ((ChatWS.broadcastUserJoinedData c stW).count =
      (stW.conns.filter (fun x => x.registered)).length) := by
  refine ⟨rfl, ?_, ?_, rfl⟩
  · have hp := Live.applyStreamOps_preserves ops (Live.broadcastUpdate st).state
      (Live.broadcastUpdate_cache_ne_empty st)
    rw [Live.GetCurrentData, hp.1]
    rfl
  · intro h
    simp only [Chat.sseConnect, if_neg h]

/-- Claim C3, witness for the amended theorem: with two clients connected
at broadcast time, after both disconnect the GET response still reports
2 viewers over an empty registry, and a chat `connected` event for a
user with no database row reports the database count 0. -/
theorem claim3_witness :
    (Live.GetCurrentData (Live.applyStreamOps
        [Live.StreamOp.disconnect 0, Live.StreamOp.disconnect 1]
        (Live.broadcastUpdate w3St).state)).viewCount = 2 ∧
    (Live.applyStreamOps [Live.StreamOp.disconnect 0, Live.StreamOp.disconnect 1]
        (Live.broadcastUpdate w3St).state).clients.length = 0 ∧
    (Chat.sseConnect "u" "nina" "p" w3Db []).2.2 =
      some { userID := "u", onlineCount := 0 } := by
  have h := claim3_amended w3St [Live.StreamOp.disconnect 0, Live.StreamOp.disconnect 1]
    w3Db [] "u" "nina" "p"
    { userID := "x", username := "x", photoURL := "",
      queue := [], closed := false, registered := true, pumpAlive := true }
    { conns := [], chatwsMessages := [] }
  refine ⟨?_, by decide, ?_⟩
  · rw [h.2.1]
    decide
  · exact (h.2.2.1 (by decide)).trans (by decide)

/-- Claim C4, counterexample: over the chatws WebSocket path, a forged
token — three well-formed segments with a decodable payload but a
signature the Google validator would reject — reaches the Active state:
the connection is authenticated and registered.  No configuration flag
gates this path; the permissive parse is unconditional. -/
theorem claim4_cex :
    c4Tok.signatureValid = false ∧
    (ChatWS.HandleWebSocket c4Tok c4St).2 = true ∧
    ChatWS.getOnlineCount (ChatWS.HandleWebSocket c4Tok c4St).1 = 1 := by
  decide

/-- Claim C4 (amended): the chat HTTP auth path verifies tokens through
the external validator whenever a Google client ID is configured and
rejects the request when validation fails; when the client ID is unset —
the package default when `SetGoogleClientID` is never called — it falls
back to accepting the caller-supplied identity unverified.  The chatws
WebSocket path never consults the validator at all: its result is
independent of signature validity, and any non-empty token with three
segments, a decodable payload and a non-empty `sub` reaches Active. -/
theorem claim4_amended (cid : String) (validate : String → Option Chat.VerifiedPayload)
    (req : Chat.GoogleAuthReq) (db : Chat.ChatDB) (tok : ChatWS.IDToken) (b : Bool)
    (st : ChatWS.WSState) :
    (cid ≠ "" → ∀ u v,
      (Chat.googleAuthHandler cid validate req db).1 = Chat.AuthResp.okResp u v →
      ∃ p, validate req.idToken = some p) ∧
    (cid = "" → req.idToken ≠ "" → req.email ≠ "" →
      (Chat.googleAuthHandler cid validate req db).1 =
        Chat.AuthResp.okResp req.email req.username) ∧
    (ChatWS.authenticateClientWithToken { tok with signatureValid := b } =
      ChatWS.authenticateClientWithToken tok) ∧
    (∀ cl, tok.raw ≠ "" → tok.partsCount = 3 → tok.payload = some cl → cl.sub ≠ "" →
      (ChatWS.HandleWebSocket tok st).2 = true) := by
  refine ⟨?_, ?_, rfl, ?_⟩
  · intro hcid u v hok
    by_cases hidt : req.idToken = ""
    · simp [Chat.googleAuthHandler, hidt] at hok
    · rcases hv : validate req.idToken with _ | p
      · simp [Chat.googleAuthHandler, hidt, hcid, hv] at hok
      · exact ⟨p, rfl⟩
  · intro hcid hidt hemail
    simp [Chat.googleAuthHandler, hidt, hcid, hemail]
  · intro cl hraw hparts hpayload hsub
    simp [ChatWS.HandleWebSocket, hraw, ChatWS.authenticateClientWithToken, hparts,
      hpayload, hsub]

/-- Claim C4, witness for the amended theorem: with a configured client
ID, a successful login implies the stub validator accepted the token;
with no client ID, the unverified development fallback accepts the
request; and the chatws path registers the connection for a token the
parse accepts. -/
theorem claim4_witness :
    (∃ p, w4Validate "tok" = some p) ∧
    (Chat.googleAuthHandler "" w4Validate w4Req w1Db).1 =
      Chat.AuthResp.okResp "e@x" "neil" ∧
    (ChatWS.HandleWebSocket w4Tok c4St).2 = true := by
  have h1 := claim4_amended "client-id" w4Validate w4Req w1Db w4Tok false c4St
  have h2 := claim4_amended "" w4Validate w4Req w1Db w4Tok false c4St
  refine ⟨?_, ?_, ?_⟩
  · exact h1.1 (by decide) "e@x" "Neil" (by decide)
  · exact h2.2.1 rfl (by decide) (by decide)
  · exact h1.2.2.2 { sub := "s", email := "e@x", name := "Neil", picture := "" }
      (by decide) (by decide) (by decide) (by decide)

/-- Claim C5, counterexample: on the chatws WebSocket delivery path, a
message sent by `b` IS enqueued onto the channel of `a` even though `a`
has blocked `b` — `handleBroadcast` evaluates no block predicate at
all, contradicting the claim for this delivery path. -/
theorem claim5_cex :
    Chat.isBlockedBy c5Db "a" "b" = true ∧
    (((ChatWS.handleChatMessage 0 "hi" c5St).conns)[1]?).map (fun c => c.queue) =
      some [ChatWS.msgEventEncode "b" "bob" "" "hi"] := by
  decide

/-- Claim C5 (amended): the chat SSE delivery path (`broadcastMessage`)
does evaluate the block predicate per recipient — a recipient that has
blocked the sender is skipped with its channel untouched, while a
recipient that has not blocked the sender (and has buffer room) receives
the message event; the chatws WebSocket delivery path
(`handleBroadcast`) applies no block filtering and delivers the message
to every registered client with buffer room. -/
theorem claim5_amended (m : Chat.ChatMsg) (senderID : String) (db : Chat.ChatDB)
    (reg : Chat.Registry) (iA iC : Nat) (stW : ChatWS.WSState) (j : Nat) (ev : String) :
    (∀ A clA, reg[iA]? = some (A, clA) → Chat.isBlockedBy db A senderID = true →
      (Chat.broadcastMessage m senderID db reg)[iA]? = some (A, clA)) ∧
    (∀ C clC, reg[iC]? = some (C, clC) → Chat.isBlockedBy db C senderID = false →
      clC.channel.length < Chat.chanCap →
      (Chat.broadcastMessage m senderID db reg)[iC]? =
        some (C, { clC with
          channel := clC.channel ++ [Chat.sseFrame (Chat.msgEventEncode m)] })) ∧
    (∀ c, stW.conns[j]? = some c → c.registered = true →
      c.queue.length < ChatWS.sendCap →
      ((ChatWS.handleBroadcast ev stW).conns)[j]? =
        some { c with queue := c.queue ++ [ev] }) := by
  refine ⟨?_, ?_, ?_⟩
  · intro A clA hA hblocked
    rw [Chat.broadcastMessage_getElem m senderID db reg iA (A, clA) hA]
    simp [Chat.chatDeliver, hblocked]
  · intro C clC hC hblocked hroom
    rw [Chat.broadcastMessage_getElem m senderID db reg iC (C, clC) hC]
    simp [Chat.chatDeliver, hblocked, hroom]
  · intro c hc hreg hroom
    rw [ChatWS.handleBroadcast_getElem ev stW j c hc]
    simp [ChatWS.wsDeliver, hreg, hroom]

/-- Claim C5, witness for the amended theorem: in the chat SSE path,
blocker `a` does not receive `b`'s message while bystander `c` does. -/
theorem claim5_witness :
    (Chat.broadcastMessage w5M "b" c5Db w5Reg)[0]? =
      some ("a", { userID := "a", username := "anna", photoURL := "", channel := [] }) ∧
    (Chat.broadcastMessage w5M "b" c5Db w5Reg)[1]? =
      some ("c",
        { userID := "c", username := "carol", photoURL := "",
          channel := [Chat.sseFrame (Chat.msgEventEncode w5M)] }) := by
  have h := claim5_amended w5M "b" c5Db w5Reg 0 1
    { conns := [], chatwsMessages := [] } 0 "e"
  constructor
  · exact h.1 "a" { userID := "a", username := "anna", photoURL := "", channel := [] }
      (by decide) (by decide)
  · exact h.2.1 "c" { userID := "c", username := "carol", photoURL := "", channel := [] }
      (by decide) (by decide) (by decide)

/-- Claim C6, counterexample: on the chatws WebSocket path, a send-message
request from user `b`, who IS in the ban list, receives no ban-rejection
and its `message` event is broadcast to subscriber `r` — the chatws
message handler consults no ban list, contradicting the claim. -/
theorem claim6_cex :
    Chat.isUserBanned "b" c6Db = true ∧
    (((ChatWS.handleChatMessage 0 "hi" c6St).conns)[1]?).map (fun c => c.queue) =
      some [ChatWS.msgEventEncode "b" "bob" "" "hi"] := by
  decide

/-- Claim C6 (amended): the chat HTTP send-message handler behaves as
claimed — a banned sender gets a ban-rejection with no broadcast and no
state change, and an unbanned sender that exists in `chat_users` gets a
`message` event (carrying the text, username and user id) enqueued on
the channel of every subscriber that has not blocked the sender and has
buffer room; the chatws WebSocket message path performs no ban check and
no block filtering — any non-empty message from a connected client is
broadcast to every registered client with buffer room. -/
theorem claim6_amended (req : Chat.SendReq) (db : Chat.ChatDB) (reg : Chat.Registry)
    (stW : ChatWS.WSState) (i j : Nat) (text : String) :
    (req.userID ≠ "" → req.message ≠ "" → Chat.isUserBanned req.userID db = true →
      Chat.sendMessageHandler req db reg = (Chat.SendResp.bannedResp, db, reg)) ∧
    (∀ u, req.userID ≠ "" → req.message ≠ "" → Chat.isUserBanned req.userID db = false →
      Chat.lookupUser req.userID db = some u →
      ((∀ (k : Nat) (uid : String) (cl : Chat.SSEClient), reg[k]? = some (uid, cl) →
          Chat.isBlockedBy db uid req.userID = false → cl.channel.length < Chat.chanCap →
          ((Chat.sendMessageHandler req db reg).2.2)[k]? =
            some (uid, { cl with channel := cl.channel ++
              [Chat.sseFrame (Chat.msgEventEncode
                { id := db.messages.length + 1, userID := req.userID,
                  username := u.username, photoURL := u.photoURL,
                  text := req.message })] })) ∧
        (Chat.sendMessageHandler req db reg).1 =
          Chat.SendResp.okResp (db.messages.length + 1))) ∧
    (∀ c, stW.conns[i]? = some c → text ≠ "" →
      ∀ c2, stW.conns[j]? = some c2 → c2.registered = true →
        c2.queue.length < ChatWS.sendCap →
        ((ChatWS.handleChatMessage i text stW).conns)[j]? =
          some { c2 with queue := c2.queue ++
            [ChatWS.msgEventEncode c.userID c.username c.photoURL text] }) := by
  refine ⟨?_, ?_, ?_⟩
  · intro h1 h2 hban
    have hcond : ¬(req.userID = "" ∨ req.message = "") := by simp [h1, h2]
    simp [Chat.sendMessageHandler, hcond, hban]
  · intro u h1 h2 hban hlookup
    have hcond : ¬(req.userID = "" ∨ req.message = "") := by simp [h1, h2]
    constructor
    · intro k uid cl hk hblocked hroom
      simp only [Chat.sendMessageHandler, if_neg hcond, hban, Bool.false_eq_true,
        if_false, hlookup]
      rw [Chat.broadcastMessage_getElem _ _ _ reg k (uid, cl) hk]
      simp only [Chat.isBlockedBy] at hblocked
      have hnb : (uid, req.userID) ∉ db.blocks := by simpa using hblocked
      simp [Chat.chatDeliver, Chat.isBlockedBy, hnb, hroom]
    · simp [Chat.sendMessageHandler, hcond, hban, hlookup]
  · intro c hc htext c2 hc2 hreg hroom
    simp only [ChatWS.handleChatMessage, hc]
    rw [if_neg htext]
    rw [ChatWS.handleBroadcast_getElem
      (ChatWS.msgEventEncode c.userID c.username c.photoURL text)
      { conns := stW.conns, chatwsMessages := stW.chatwsMessages ++ [(c.userID, text)] }
      j c2 hc2]
    simp [ChatWS.wsDeliver, hreg, hroom]

/-- Claim C6, witness for the amended theorem: banned user `z` is
rejected with no broadcast; unbanned user `s` gets `okResp` and the
`message` event lands on non-blocking subscriber `a`'s channel. -/
theorem claim6_witness :
    Chat.sendMessageHandler w6ReqBanned w6Db w6Reg =
      (Chat.SendResp.bannedResp, w6Db, w6Reg) ∧
    (Chat.sendMessageHandler w6Req w6Db w6Reg).1 = Chat.SendResp.okResp 1 ∧
    ((Chat.sendMessageHandler w6Req w6Db w6Reg).2.2)[0]? =
      some ("a",
        { userID := "a", username := "anna", photoURL := "",
          channel := [Chat.sseFrame (Chat.msgEventEncode
            { id := 1, userID := "s", username := "sam", photoURL := "",
              text := "hi" })] }) := by
  have h1 := claim6_amended w6ReqBanned w6Db w6Reg { conns := [], chatwsMessages := [] } 0 0 "e"
  have h2 := claim6_amended w6Req w6Db w6Reg { conns := [], chatwsMessages := [] } 0 0 "e"
  have hu := h2.2.1
    { id := "s", email := "s@x", username := "sam", photoURL := "", isOnline := true }
    (by decide) (by decide) (by decide) (by decide)
  refine ⟨h1.1 (by decide) (by decide) (by decide), hu.2, ?_⟩
  exact hu.1 0 "a" { userID := "a", username := "anna", photoURL := "", channel := [] }
    (by decide) (by decide) (by decide)

/-- Claim C7, counterexample: in the chatws registry (keyed by the
connection object, not by identity), a second connection of the same
identity `u` without an intervening disconnect raises the online count
from 1 to 2 — multiset, not set, semantics. -/
theorem claim7_cex :
    ChatWS.getOnlineCount c7S1 = 1 ∧
    ChatWS.getOnlineCount c7S2 = 2 ∧
    ChatWS.getOnlineCount c7S2 ≠ ChatWS.getOnlineCount c7S1 := by
  decide

/-- Claim C7 (amended): the chat SSE registry is keyed by user id, so
re-registering an identity already present replaces its entry and
leaves the registry size unchanged (set semantics); the chatws registry
is keyed by connection object, so every new connection — same identity
or not — adds an entry and raises `getOnlineCount` by one. -/
theorem claim7_amended (reg : Chat.Registry) (uid : String) (c : Chat.SSEClient)
    (st : ChatWS.WSState) (uname purl : String) :
    ((∃ c0, (uid, c0) ∈ reg) → (Chat.mapInsert uid c reg).length = reg.length) ∧
    (ChatWS.getOnlineCount (ChatWS.wsRegister uid uname purl st) =
      ChatWS.getOnlineCount st + 1) := by
  constructor
  · rintro ⟨c0, hc0⟩
    exact Chat.mapInsert_length_of_mem uid c c0 reg hc0
  · simp [ChatWS.wsRegister, ChatWS.getOnlineCount, List.filter_append]

/-- Claim C7, witness for the amended theorem: re-inserting `u` into a
chat registry already holding `u` keeps its size at 1, while a chatws
registration over a state that already holds a connection for `u`
raises the count to 2. -/
theorem claim7_witness :
    (Chat.mapInsert "u" w7Cl w7Reg).length = 1 ∧
    ChatWS.getOnlineCount (ChatWS.wsRegister "u" "n" "p" c7S1) = 2 := by
  have h := claim7_amended w7Reg "u" w7Cl c7S1 "n" "p"
  exact ⟨(h.1 ⟨w7Cl, by decide⟩).trans (by decide), h.2.trans (by decide)⟩

/-- Claim C9: each `broadcastUpdate` cycle runs the JSON encoder exactly
once; the one encoded string is both what every subscriber with room
receives and what is stored as `cachedJSONMessage`; and a stream
subscriber connecting while the cache is non-empty is sent the cached
message with zero fresh encodes. -/
theorem claim9_thm (st st2 : Live.LiveState) (newId i : Nat) :
    ((Live.broadcastUpdate st).encodes.length = 1) ∧
    ((Live.broadcastUpdate st).encodes =
      [(Live.broadcastUpdate st).state.cachedJSONMessage]) ∧
    (∀ c, st.clients[i]? = some c → c.queue.length < Live.sseChanCap →
      ((Live.broadcastUpdate st).state.clients)[i]? =
        some { c with
          queue := c.queue ++ [(Live.broadcastUpdate st).state.cachedJSONMessage] }) ∧
    (st2.cachedJSONMessage ≠ "" →
      (Live.streamConnect newId st2).2.1 = st2.cachedJSONMessage ∧
      (Live.streamConnect newId st2).2.2 = 0) := by
  refine ⟨rfl, rfl, ?_, ?_⟩
  · intro c hc hroom
    rw [Live.broadcastUpdate_getElem st i c hc]
    simp [Live.liveDeliver, hroom]
  · intro h
    simp [Live.streamConnect, h]

/-- Claim C9, witness: on a state with one empty-buffered client and a
non-empty cache, the broadcast encodes once and delivers that encoding,
and a new connection is served the cached string with zero encodes. -/
theorem claim9_witness :
    (Live.broadcastUpdate w9St).encodes.length = 1 ∧
    ((Live.broadcastUpdate w9St).state.clients)[0]? =
      some { chanId := 0, queue := [(Live.broadcastUpdate w9St).state.cachedJSONMessage] } ∧
    (Live.streamConnect 1 w9St).2.1 = "cached" ∧
    (Live.streamConnect 1 w9St).2.2 = 0 := by
  have h := claim9_thm w9St w9St 1 0
  refine ⟨h.1, ?_, ?_, ?_⟩
  · exact h.2.2.1 { chanId := 0, queue := [] } (by decide) (by decide)
  · exact (h.2.2.2 (by decide)).1
  · exact (h.2.2.2 (by decide)).2

/-- Claim C10: `getBlockedUserIDs` joins the requester's quoted blocked
ids into one string that always begins with a single-quote character and
is bound as the single parameter of `user_id NOT IN (?)`; therefore, as
long as no stored user id begins with a single quote, the exclusion
filter removes nothing and the handler returns the `limit` most recent
messages reversed into chronological order — messages from blocked
users included. -/
theorem claim10_thm (uid : String) (lim : Nat) (db : Chat.ChatDB)
    (h1 : uid ≠ "")
    (h2 : ∀ m ∈ db.messages, m.userID.data.head? ≠ some Chat.quoteChar) :
    (Chat.getBlockedUserIDs uid db).data.head? = some Chat.quoteChar ∧
    Chat.getMessagesHandler uid lim db = some ((db.messages.reverse.take lim).reverse) := by
  refine ⟨Chat.getBlockedUserIDs_head uid db, ?_⟩
  simp only [Chat.getMessagesHandler, if_neg h1]
  have hfilter : db.messages.filter
      (fun m => m.userID ≠ Chat.getBlockedUserIDs uid db) = db.messages := by
    rw [List.filter_eq_self]
    intro m hm
    have hne : m.userID ≠ Chat.getBlockedUserIDs uid db := by
      intro heq
      exact h2 m hm (by rw [heq]; exact Chat.getBlockedUserIDs_head uid db)
    simpa using hne
  rw [hfilter]

/-- Claim C10, witness: requester `a` has blocked `b`, yet the returned
history is the full chronological list including `b`'s message. -/
theorem claim10_witness :
    Chat.getMessagesHandler "a" 30 w10Db = some [w10MsgB, w10MsgC] ∧
    Chat.isBlockedBy w10Db "a" "b" = true ∧
    w10MsgB.userID = "b" := by
  have h := claim10_thm "a" 30 w10Db (by decide) (by decide)
  exact ⟨h.2.trans (by decide), by decide, by decide⟩
